import Mathlib

/-!
Verification of the TaskFlow CLI core (storage module and list/done command
pipeline) against its specification.

The JavaScript source is embedded shallowly:

* Task records become a Lean structure with `Option` fields where the
  JavaScript object may lack the field or hold `null`.
* The YAML backing file is modelled at the level of parsed document values:
  a file is absent, blank, syntactically malformed, or parses to an optional
  document.  The pair `yaml.dump` / `yaml.load` used by the storage module
  (js-yaml with `noRefs` on plain data) is modelled as the identity on
  document values.  I/O failures (permissions) are outside the model.
* Impure reads of the current date (`getTodayDate`) become an explicit
  `today : String` parameter.
* In-place mutation (`markTaskDone`) becomes explicit state passing, and
  command runners take the loaded task list as a parameter and return the
  final list together with a flag recording whether `saveTasks` was called.

`loadTasks`, `saveTasks` and `getNextId` are embedded from the implemented
storage module snapshot bundled in `prompts/create-tasks.md` (the copy at
`src/storage.js` is a TODO stub of the same functions).  `createTask` has no
implementation anywhere in the repository and is modelled from the
specification, as marked on its doc comment.  All command code
(`validateAddInput`, `markTaskDone`, `findTaskById`, `runDone`,
`validateFilters`, `filterTasks`, `sortTasks`, `runList`) is embedded from
the command sources.
-/

namespace TaskFlow

/-- Task record, from the data model of the storage module
(`docs/specs/task-storage.md` and the command sources).  `id`, `tags` and
`completed` are `Option` because the JavaScript code guards against records
lacking them (`t.id || 0`, `!task.tags`, `completed: null`). -/
structure Task where
  id : Option Int
  text : String
  priority : String
  tags : Option (List String)
  status : String
  created : String
  completed : Option String
deriving DecidableEq

/-- Value of `t.id || 0` in the JavaScript sources: a missing or falsy id is
treated as 0. -/
def idOrZero (t : Task) : Int := t.id.getD 0

/-- Constant `TASK_FILE_NAME` from `src/storage.js`. -/
def TASK_FILE_NAME : String := ".taskflow.yaml"

/-- Constant `SCHEMA_VERSION` from `src/storage.js`. -/
def SCHEMA_VERSION : Int := 1

/-- Shape of the `tasks` field of a parsed YAML document, as the load code
distinguishes it: missing key, explicit null, some non-sequence value
(`!Array.isArray`), or a sequence of task records. -/
inductive TasksField where
  | missing
  | nullVal
  | notSeq
  | arr (ts : List Task)
deriving DecidableEq

/-- Parsed YAML document: optional `version` field and the `tasks` field. -/
structure YamlDoc where
  version : Option Int
  tasks : TasksField
deriving DecidableEq

/-- Content of an existing backing file, abstracting the outcome of
`yaml.load` on the file text: blank (empty or whitespace-only, checked by the
load code before parsing), syntactically malformed (the parser throws with a
message), or parsed to a document (`none` when the document is null or
otherwise falsy). -/
inductive YamlText where
  | blank
  | malformed (msg : String)
  | doc (d : Option YamlDoc)
deriving DecidableEq

/-- State of the backing `.taskflow.yaml` file: absent or existing with some
content. -/
inductive FileState where
  | absent
  | file (content : YamlText)
deriving DecidableEq

/-- Function `loadTasks` of the storage module (implemented snapshot in
`prompts/create-tasks.md`): absent file gives an empty list, blank content
gives an empty list, a parse failure is rethrown as
`Invalid .taskflow.yaml: <parser message>`, a null document or a missing,
null or non-sequence `tasks` field gives an empty list, and a sequence is
returned as read. -/
def loadTasks : FileState → Except String (List Task)
  | .absent => .ok []
  | .file .blank => .ok []
  | .file (.malformed msg) => .error ("Invalid " ++ TASK_FILE_NAME ++ ": " ++ msg)
  | .file (.doc none) => .ok []
  | .file (.doc (some d)) =>
    match d.tasks with
    | .arr ts => .ok ts
    | _ => .ok []

/-- Function `saveTasks` of the storage module (implemented snapshot in
`prompts/create-tasks.md`): wraps `tasks || []` with the schema version and
rewrites the file wholesale.  The `yaml.dump` / `yaml.load` pair is modelled
as the identity on document values. -/
def saveTasks (tasks : Option (List Task)) : FileState :=
  .file (.doc (some { version := some SCHEMA_VERSION, tasks := .arr (tasks.getD []) }))

/-- Function `getNextId` of the storage module (implemented snapshot in
`prompts/create-tasks.md`): 1 for a null or empty list, otherwise
`Math.max(...tasks.map(t => t.id || 0)) + 1`. -/
def getNextId : Option (List Task) → Int
  | none => 1
  | some [] => 1
  | some (t :: ts) => ts.foldl (fun m u => max m (idOrZero u)) (idOrZero t) + 1

/-- JavaScript `String.prototype.trim`, modelled on the character list:
whitespace is removed from both ends. -/
def jsTrim (s : String) : String :=
  ⟨(((s.data.dropWhile Char.isWhitespace).reverse.dropWhile Char.isWhitespace).reverse : List Char)⟩

/-- JavaScript text argument of the add/create validation: null or undefined,
an actual string, or a value of any non-string type. -/
inductive JsText where
  | missing
  | str (s : String)
  | nonString
deriving DecidableEq

/-- Error object carrying a `code` property, as thrown by `validateAddInput`
and `validateFilters`. -/
structure CodedError where
  code : String
  message : String
deriving DecidableEq

/-- Constant `VALID_PRIORITIES` from the add and list commands. -/
def VALID_PRIORITIES : List String := ["high", "medium", "low"]

/-- Function `validateAddInput` of the add command (`src/commands/add.js`,
bundled in `src/storage.js`): null or undefined text gives `MISSING_TEXT`;
non-string or whitespace-only text gives `EMPTY_TEXT`; a supplied priority is
lower-cased and must be one of `VALID_PRIORITIES`, else `INVALID_PRIORITY`. -/
def validateAddInput : JsText → Option String → Except CodedError Unit
  | .missing, _ => .error { code := "MISSING_TEXT", message := "Task text is required" }
  | .nonString, _ => .error { code := "EMPTY_TEXT", message := "Task text cannot be empty" }
  | .str s, p =>
    if jsTrim s = "" then
      .error { code := "EMPTY_TEXT", message := "Task text cannot be empty" }
    else
      match p with
      | none => .ok ()
      | some pr =>
        if VALID_PRIORITIES.contains pr.toLower then .ok ()
        else .error { code := "INVALID_PRIORITY",
                      message := "Invalid priority \"" ++ pr ++ "\"\n\nValid priorities: " ++
                        String.intercalate ", " VALID_PRIORITIES }

/-- Reasons a record construction can fail, per the specification (missing
text, empty-after-trim text, wrong type). -/
inductive CreateError where
  | missingText
  | emptyText
  | wrongType
deriving DecidableEq

/-- Optional field overrides accepted by record construction. -/
structure CreateOptions where
  id : Option Int := none
  priority : Option String := none
  tags : Option (List String) := none
  status : Option String := none
  created : Option String := none
  completed : Option String := none
deriving DecidableEq

/-- Modelled from the spec: the implementation of `createTask` is missing
from the repository (the copy at `src/storage.js` is a TODO stub and no other
copy exists), so record construction follows the specification's words: text
must be a non-null, non-empty (after trimming) string, else a
ValidationError distinguishing missing from empty from wrong type; the text
is trimmed; unspecified fields default to priority `medium`, empty tags,
status `open`, `created` the current date (the `today` parameter), null
`completed`, and null `id` (assignment is the caller's job).  The
independent-copy requirement on a tags override is implicit in the pure
embedding. -/
def createTask (text : JsText) (opts : CreateOptions) (today : String) :
    Except CreateError Task :=
  match text with
  | .missing => .error .missingText
  | .nonString => .error .wrongType
  | .str s =>
    if jsTrim s = "" then .error .emptyText
    else .ok {
      id := opts.id,
      text := jsTrim s,
      priority := opts.priority.getD "medium",
      tags := some (opts.tags.getD []),
      status := opts.status.getD "open",
      created := opts.created.getD today,
      completed := opts.completed }

/-- Function `markTaskDone` of the done command: an already-done task is left
unchanged and the call reports false; otherwise status becomes `done`,
`completed` becomes the current date (the `today` parameter), and the call
reports true.  The in-place mutation is embedded as returning the updated
record. -/
def markTaskDone (today : String) (t : Task) : Bool × Task :=
  if t.status == "done" then
    (false, t)
  else
    (true, { t with status := "done", completed := some today })

/-- Function `findTaskById` of the done/show commands:
`tasks.find(task => task.id === id) || null`. -/
def findTaskById (tasks : List Task) (id : Int) : Option Task :=
  tasks.find? (fun t => t.id == some id)

/-- Rendering of `task.id` inside a JavaScript template string. -/
def showOptId : Option Int → String
  | some n => toString n
  | none => "undefined"

/-- Tag suffix used by the command formatters:
`task.tags && task.tags.length > 0 ? ' ' + task.tags.map(t => '#' + t).join(' ') : ''`. -/
def tagSuffix (task : Task) : String :=
  match task.tags with
  | some l => if l.length > 0 then " " ++ String.intercalate " " (l.map (fun t => "#" ++ t)) else ""
  | none => ""

/-- Function `formatOutput` of the done command. -/
def formatDoneOutput (task : Task) (wasAlreadyDone : Bool) : String :=
  if wasAlreadyDone then
    "Task #" ++ showOptId task.id ++ " was already complete\n  \"" ++ task.text ++
      "\" [" ++ task.priority ++ "]" ++ tagSuffix task
  else
    "✓ Completed task #" ++ showOptId task.id ++ "\n  \"" ++ task.text ++
      "\" [" ++ task.priority ++ "]" ++ tagSuffix task ++ " → done"

/-- Result record returned by the command runners:
`{ success, output, exitCode }`. -/
structure CmdResult where
  success : Bool
  output : String
  exitCode : Nat
deriving DecidableEq

/-- Outcome of one done-command invocation: the returned result, the final
in-memory task list, and whether `saveTasks` was called. -/
structure DoneOutcome where
  result : CmdResult
  tasks : List Task
  saved : Bool
deriving DecidableEq

/-- Replacement of the first list element satisfying `p`; this is how the
in-place mutation of the object returned by `find` appears to the list that
contains it. -/
def replaceFirst (p : Task → Bool) (new : Task) : List Task → List Task
  | [] => []
  | t :: ts => if p t then new :: ts else t :: replaceFirst p new ts

/-- Function `runDone` of the done command, embedded after argument parsing
and id validation (`validateTaskId` accepts exactly the positive whole
numbers), with the `loadTasks` result injected as the `tasks` parameter: a
missing id is an error with exit code 1; an already-done task is reported as
a warning with exit code 0 without calling `saveTasks`; otherwise the task is
marked done, the list is saved, and exit code 0 is returned. -/
def runDoneCore (today : String) (taskId : Int) (tasks : List Task) : DoneOutcome :=
  match findTaskById tasks taskId with
  | none =>
    { result := { success := false,
                  output := "Error: Task #" ++ toString taskId ++
                    " not found\n\nRun 'tf list --all' to see available tasks.",
                  exitCode := 1 },
      tasks := tasks, saved := false }
  | some task =>
    if task.status == "done" then
      { result := { success := true, output := formatDoneOutput task true, exitCode := 0 },
        tasks := tasks, saved := false }
    else
      { result := { success := true,
                    output := formatDoneOutput (markTaskDone today task).2 false, exitCode := 0 },
        tasks := replaceFirst (fun t => t.id == some taskId) (markTaskDone today task).2 tasks,
        saved := true }

/-- Parsed filter flags of the list command (`parseListArgs` result). -/
structure ListFilters where
  done : Bool := false
  all : Bool := false
  priority : Option String := none
  tag : Option String := none
  help : Bool := false
deriving DecidableEq

/-- JavaScript truthiness of an optional string field: absent and the empty
string are falsy. -/
def truthyStr : Option String → Bool
  | none => false
  | some s => s != ""

/-- Function `validateFilters` of the list command:
`if (filters.priority && !VALID_PRIORITIES.includes(filters.priority))`
throws `INVALID_PRIORITY` naming the value and the permitted set. -/
def validateFilters (f : ListFilters) : Except CodedError Unit :=
  if truthyStr f.priority && !(VALID_PRIORITIES.contains (f.priority.getD "")) then
    .error { code := "INVALID_PRIORITY",
             message := "Invalid priority \"" ++ f.priority.getD "" ++
               "\"\n\nValid priorities: " ++ String.intercalate ", " VALID_PRIORITIES }
  else .ok ()

/-- Status stage of `filterTasks`: the `done` flag selects done records; the
default case selects records that are not done; only when `done` is unset
does `all` switch the stage off. -/
def statusPass (f : ListFilters) (task : Task) : Bool :=
  if f.done then task.status == "done"
  else if !f.all then !(task.status == "done")
  else true

/-- Priority stage of `filterTasks`:
`if (filters.priority && task.priority !== filters.priority) return false`. -/
def priorityPass (f : ListFilters) (task : Task) : Bool :=
  if truthyStr f.priority then task.priority == f.priority.getD "" else true

/-- Tag stage of `filterTasks`:
`if (filters.tag) { if (!task.tags || !task.tags.includes(filters.tag)) return false }`. -/
def tagPass (f : ListFilters) (task : Task) : Bool :=
  if truthyStr f.tag then
    match task.tags with
    | none => false
    | some tags => tags.contains (f.tag.getD "")
  else true

/-- Function `filterTasks` of the list command: the three stages combined
with AND semantics, in source order. -/
def filterTasks (tasks : List Task) (f : ListFilters) : List Task :=
  tasks.filter (fun task => statusPass f task && priorityPass f task && tagPass f task)

/-- Lookup in `PRIORITY_ORDER` with the source's `?? 999` fallback for an
unrecognized priority. -/
def priorityRank (p : String) : Int :=
  if p == "high" then 0
  else if p == "medium" then 1
  else if p == "low" then 2
  else 999

/-- Comparator of `sortTasks`: priority rank difference first, then
`(a.id || 0) - (b.id || 0)`. -/
def comparator (a b : Task) : Int :=
  if priorityRank a.priority - priorityRank b.priority ≠ 0 then
    priorityRank a.priority - priorityRank b.priority
  else idOrZero a - idOrZero b

/-- Boolean order underlying the sort: the comparator reports `a` not after
`b`. -/
def taskLeB (a b : Task) : Bool := decide (comparator a b ≤ 0)

/-- Function `sortTasks` of the list command: `[...tasks].sort(cmp)`.
`Array.prototype.sort` is a stable sort (ECMAScript 2019) and the comparator
is consistent, so the call is embedded as a stable merge sort with the order
`comparator a b ≤ 0`; the copy `[...tasks]` and the absence of mutation are
implicit in the pure embedding. -/
def sortTasks (tasks : List Task) : List Task :=
  tasks.mergeSort taskLeB

/-- Priority indicator of `formatTask`:
`PRIORITY_INDICATORS[task.priority] || '⚪'`, or the done indicator. -/
def taskIndicator (task : Task) : String :=
  if task.status == "done" then "✅"
  else if task.priority == "high" then "🔴"
  else if task.priority == "medium" then "🟡"
  else if task.priority == "low" then "🟢"
  else "⚪"

/-- Function `formatTask` of the list command. -/
def formatTask (task : Task) : String :=
  taskIndicator task ++ " #" ++ showOptId task.id ++ " " ++ task.text ++
    " [" ++ task.priority ++ "]" ++ tagSuffix task ++
    (if task.status == "done" then " (done)" else "")

/-- Function `getEmptyMessage` of the list command. -/
def getEmptyMessage (f : ListFilters) : String :=
  if f.done then
    if truthyStr f.priority then
      "No completed " ++ f.priority.getD "" ++ " priority tasks found."
    else if truthyStr f.tag then
      "No completed tasks with tag \"" ++ f.tag.getD "" ++ "\" found."
    else "No completed tasks."
  else if truthyStr f.priority && truthyStr f.tag then
    "No " ++ f.priority.getD "" ++ " priority tasks with tag \"" ++ f.tag.getD "" ++ "\" found."
  else if truthyStr f.priority then
    "No " ++ f.priority.getD "" ++ " priority tasks found."
  else if truthyStr f.tag then
    "No tasks with tag \"" ++ f.tag.getD "" ++ "\" found."
  else if f.all then
    "No tasks found. Use 'tf add \"task\"' to create one."
  else
    "No open tasks. Use 'tf add \"task\"' to create one."

/-- Function `formatTaskList` of the list command. -/
def formatTaskList (tasks : List Task) (f : ListFilters) : String :=
  if tasks.isEmpty then getEmptyMessage f
  else String.intercalate "\n" (tasks.map formatTask)

/-- Help text of the list command (`getHelpText`, after `.trim()`). -/
def listHelpText : String :=
  "Usage: tf list [options]\n\nList and filter your tasks.\n\nOptions:\n  --done              Show completed tasks only\n  -a, --all           Show all tasks (open + done)\n  -p, --priority      Filter by priority: high, medium, low\n  -t, --tag           Filter by tag\n  -h, --help          Show this help message\n\nExamples:\n  tf list                     # Show open tasks\n  tf list --done              # Show completed tasks\n  tf list --all               # Show all tasks\n  tf list -p high             # Show high priority tasks\n  tf list -t backend          # Show tasks tagged \"backend\"\n  tf list -p high -t api      # Combine filters\n\nOutput:\n  🔴 = high priority\n  🟡 = medium priority\n  🟢 = low priority\n  ✅ = completed"

/-- Function `runList` of the list command, with the `loadTasks` result
injected as the `tasks` parameter (the load-failure branch returns an error
result before any filtering and is not reachable here): help short-circuits;
then filters are validated once; then the tasks are filtered, sorted and
formatted. -/
def runListWith (f : ListFilters) (tasks : List Task) : CmdResult :=
  if f.help then { success := true, output := listHelpText, exitCode := 0 }
  else
    match validateFilters f with
    | .error err => { success := false, output := "Error: " ++ err.message, exitCode := 1 }
    | .ok _ =>
      { success := true, output := formatTaskList (sortTasks (filterTasks tasks f)) f,
        exitCode := 0 }

/-- Sample open task used as a concrete witness input. -/
def sampleTask1 : Task :=
  { id := some 1, text := "Fix login bug", priority := "high", tags := some ["bug"],
    status := "open", created := "2025-12-03", completed := none }

/-- Sample completed task used as a concrete witness input. -/
def sampleDoneTask : Task :=
  { id := some 1, text := "Write tests", priority := "medium", tags := some [],
    status := "done", created := "2025-12-02", completed := some "2025-12-03" }

/-- Sample task with the same sort key as `sampleTaskB`. -/
def sampleTaskA : Task :=
  { id := some 2, text := "first", priority := "medium", tags := some [],
    status := "open", created := "2025-12-03", completed := none }

/-- Sample task with the same sort key as `sampleTaskA`. -/
def sampleTaskB : Task :=
  { id := some 2, text := "second", priority := "medium", tags := some [],
    status := "open", created := "2025-12-03", completed := none }

/-- Starting value of a left max-fold bounds the fold from below. -/
theorem le_foldl_max (l : List Int) (a : Int) : a ≤ l.foldl max a := by
  induction l generalizing a with
  | nil => simp
  | cons b l ih => exact le_trans (le_max_left a b) (ih (max a b))

/-- Every member of the list bounds a left max-fold from below. -/
theorem mem_le_foldl_max (l : List Int) (a : Int) : ∀ x ∈ l, x ≤ l.foldl max a := by
  induction l generalizing a with
  | nil => simp
  | cons b l ih =>
    intro x hx
    rcases List.mem_cons.mp hx with h | h
    · subst h; exact le_trans (le_max_right a x) (le_foldl_max l (max a x))
    · exact ih (max a b) x h

/-- A left max-fold is either its starting value or a member of the list. -/
theorem foldl_max_init_or_mem (l : List Int) (a : Int) :
    l.foldl max a = a ∨ l.foldl max a ∈ l := by
  induction l generalizing a with
  | nil => left; rfl
  | cons b l ih =>
    rcases ih (max a b) with h | h
    · rcases max_choice a b with hm | hm
      · left; rw [List.foldl_cons, h, hm]
      · right; rw [List.foldl_cons, h, hm]; exact List.mem_cons_self b l
    · right; exact List.mem_cons_of_mem b h

/-- Claim C1: saving any valid sequence of task records with `saveTasks` and
then loading with `loadTasks` returns the sequence unchanged, field for
field, including empty tag lists and null completed dates; a null save input
round-trips to the empty sequence. -/
theorem saveTasks_loadTasks_roundTrip :
    (∀ ts : List Task, loadTasks (saveTasks (some ts)) = .ok ts) ∧
    loadTasks (saveTasks none) = .ok [] :=
  ⟨fun _ => rfl, rfl⟩

/-- Claim C2: `getNextId` returns 1 on a null or empty sequence, otherwise
one greater than the maximum id over all records with a missing or falsy id
counted as 0, and is therefore strictly greater than every id present. -/
theorem getNextId_spec :
    getNextId none = 1 ∧
    getNextId (some ([] : List Task)) = 1 ∧
    (∀ ts : List Task, ts ≠ [] →
      ∃ M, M ∈ ts.map idOrZero ∧ (∀ x ∈ ts.map idOrZero, x ≤ M) ∧
        getNextId (some ts) = M + 1) ∧
    (∀ ts : List Task, ∀ t ∈ ts, ∀ v : Int, t.id = some v → v < getNextId (some ts)) := by
  have key : ∀ (t : Task) (rest : List Task),
      getNextId (some (t :: rest)) = (rest.map idOrZero).foldl max (idOrZero t) + 1 := by
    intro t rest
    simp [getNextId, List.foldl_map]
  refine ⟨rfl, rfl, ?_, ?_⟩
  · intro ts hne
    match ts, hne with
    | t :: rest, _ =>
      refine ⟨(rest.map idOrZero).foldl max (idOrZero t), ?_, ?_, key t rest⟩
      · rcases foldl_max_init_or_mem (rest.map idOrZero) (idOrZero t) with h | h
        · rw [List.map_cons, h]; exact List.mem_cons_self _ _
        · rw [List.map_cons]; exact List.mem_cons_of_mem _ h
      · intro x hx
        rw [List.map_cons] at hx
        rcases List.mem_cons.mp hx with h | h
        · subst h; exact le_foldl_max _ _
        · exact mem_le_foldl_max _ _ x h
  · intro ts t ht v hv
    cases ts with
    | nil => cases ht
    | cons u rest =>
      have hvz : v = idOrZero t := by simp [idOrZero, hv]
      have hle : idOrZero t ≤ (rest.map idOrZero).foldl max (idOrZero u) := by
        rcases List.mem_cons.mp ht with h | h
        · subst h; exact le_foldl_max _ _
        · exact mem_le_foldl_max _ _ _ (List.mem_map_of_mem idOrZero h)
      rw [key u rest, hvz]
      omega

/-- Concrete instance of claim C2 with its hypotheses discharged. -/
theorem getNextId_spec_witness :
    getNextId none = 1 ∧ (1 : Int) < getNextId (some [sampleTask1]) :=
  ⟨getNextId_spec.1,
    getNextId_spec.2.2.2 [sampleTask1] sampleTask1 (List.mem_cons_self _ _) 1 rfl⟩

/-- Claim C3: on a record with status `open`, a first `markTaskDone` call
sets status to `done`, sets `completed` to the current date and returns
true; a second call returns false and leaves the record, including its
completed date, unchanged. -/
theorem markTaskDone_idempotent (t : Task) (d₁ d₂ : String) (h : t.status = "open") :
    (markTaskDone d₁ t).1 = true ∧
    (markTaskDone d₁ t).2.status = "done" ∧
    (markTaskDone d₁ t).2.completed = some d₁ ∧
    (markTaskDone d₂ (markTaskDone d₁ t).2).1 = false ∧
    (markTaskDone d₂ (markTaskDone d₁ t).2).2 = (markTaskDone d₁ t).2 := by
  simp [markTaskDone, h]

/-- Concrete instance of claim C3 with its hypothesis discharged. -/
theorem markTaskDone_idempotent_witness :
    (markTaskDone "2025-12-04" (markTaskDone "2025-12-03" sampleTask1).2).1 = false :=
  (markTaskDone_idempotent sampleTask1 "2025-12-03" "2025-12-04" rfl).2.2.2.1

/-- Claim C4: for a non-empty text and no overrides, record construction
yields the trimmed text, priority `medium`, empty tags, status `open`, null
completed date, `created` set to the current date, and a null id. -/
theorem createTask_defaults (s today : String) (h : jsTrim s ≠ "") :
    createTask (.str s) {} today =
      .ok { id := none, text := jsTrim s, priority := "medium", tags := some [],
            status := "open", created := today, completed := none } := by
  simp [createTask, h]

/-- Concrete instance of claim C4 with its hypothesis discharged. -/
theorem createTask_defaults_witness :
    createTask (.str "x") {} "2025-12-03" =
      .ok { id := none, text := jsTrim "x", priority := "medium", tags := some [],
            status := "open", created := "2025-12-03", completed := none } :=
  createTask_defaults "x" "2025-12-03" (by decide)

/-- Claim C5 counterexample: the implemented text validation does not
distinguish three reasons — a wrong-type (non-string) text receives the same
`EMPTY_TEXT` reason code and message as an empty text, not a distinct
wrong-type reason. -/
theorem validateAddInput_three_reasons_counterexample :
    validateAddInput .nonString none =
      .error { code := "EMPTY_TEXT", message := "Task text cannot be empty" } ∧
    validateAddInput (.str "") none =
      .error { code := "EMPTY_TEXT", message := "Task text cannot be empty" } ∧
    validateAddInput .missing none =
      .error { code := "MISSING_TEXT", message := "Task text is required" } :=
  ⟨rfl, rfl, rfl⟩

/-- Claim C5 as amended: validation fails exactly when the text is missing,
not a string, or empty after trimming, distinguishing two reasons: missing
text gets `MISSING_TEXT`, while empty-after-trim and wrong-type both get
`EMPTY_TEXT`; in particular an empty string fails with the empty-text reason
and a missing text fails with the missing-text reason. -/
theorem validateAddInput_spec :
    (∀ t : JsText, (∃ e, validateAddInput t none = .error e) ↔
      (t = .missing ∨ t = .nonString ∨ ∃ s, t = .str s ∧ jsTrim s = "")) ∧
    validateAddInput .missing none =
      .error { code := "MISSING_TEXT", message := "Task text is required" } ∧
    (∀ s : String, jsTrim s = "" →
      validateAddInput (.str s) none =
        .error { code := "EMPTY_TEXT", message := "Task text cannot be empty" }) ∧
    validateAddInput .nonString none =
      .error { code := "EMPTY_TEXT", message := "Task text cannot be empty" } := by
  refine ⟨?_, rfl, ?_, rfl⟩
  · intro t
    cases t with
    | missing => simp [validateAddInput]
    | nonString => simp [validateAddInput]
    | str s => by_cases h : jsTrim s = "" <;> simp [validateAddInput, h]
  · intro s h
    simp [validateAddInput, h]

/-- Concrete instance of the amended claim C5 with its hypothesis
discharged. -/
theorem validateAddInput_spec_witness :
    validateAddInput (.str " ") none =
      .error { code := "EMPTY_TEXT", message := "Task text cannot be empty" } :=
  validateAddInput_spec.2.2.1 " " (by decide)

/-- Claim C6: `loadTasks` fails exactly on an existing, syntactically
malformed backing file, with an error naming the file and embedding the
parser message; an absent file, blank content, a null document, or a
missing, null or non-sequence task list all yield the empty sequence, and a
stored sequence is returned as read. -/
theorem loadTasks_error_iff :
    (∀ fs : FileState, (∃ e, loadTasks fs = .error e) ↔
      ∃ msg, fs = .file (.malformed msg)) ∧
    (∀ msg, loadTasks (.file (.malformed msg)) =
      .error ("Invalid " ++ TASK_FILE_NAME ++ ": " ++ msg)) ∧
    loadTasks .absent = .ok [] ∧
    loadTasks (.file .blank) = .ok [] ∧
    loadTasks (.file (.doc none)) = .ok [] ∧
    (∀ v, loadTasks (.file (.doc (some { version := v, tasks := .missing }))) = .ok [] ∧
      loadTasks (.file (.doc (some { version := v, tasks := .nullVal }))) = .ok [] ∧
      loadTasks (.file (.doc (some { version := v, tasks := .notSeq }))) = .ok []) ∧
    (∀ v ts, loadTasks (.file (.doc (some { version := v, tasks := .arr ts }))) = .ok ts) := by
  refine ⟨?_, fun msg => rfl, rfl, rfl, rfl, fun v => ⟨rfl, rfl, rfl⟩, fun v ts => rfl⟩
  intro fs
  constructor
  · rintro ⟨e, he⟩
    cases fs with
    | absent => simp [loadTasks] at he
    | file c =>
      cases c with
      | blank => simp [loadTasks] at he
      | malformed msg => exact ⟨msg, rfl⟩
      | doc d =>
        cases d with
        | none => simp [loadTasks] at he
        | some dd =>
          cases dd with
          | mk ver tf => cases tf <;> simp [loadTasks] at he
  · rintro ⟨msg, rfl⟩
    exact ⟨_, rfl⟩

/-- Order produced by the comparator, spelled out: priority rank strictly
less, or equal rank with id-or-zero not larger. -/
theorem comparator_le_iff (a b : Task) :
    comparator a b ≤ 0 ↔
      (priorityRank a.priority < priorityRank b.priority ∨
        (priorityRank a.priority = priorityRank b.priority ∧ idOrZero a ≤ idOrZero b)) := by
  by_cases h : priorityRank a.priority - priorityRank b.priority ≠ 0 <;>
    simp [comparator, h] <;> omega

/-- Transitivity of the sort order. -/
theorem taskLeB_trans (a b c : Task) :
    taskLeB a b = true → taskLeB b c = true → taskLeB a c = true := by
  simp only [taskLeB, decide_eq_true_eq, comparator_le_iff]
  omega

/-- Totality of the sort order. -/
theorem taskLeB_total (a b : Task) : (taskLeB a b || taskLeB b a) = true := by
  simp only [taskLeB, Bool.or_eq_true, decide_eq_true_eq, comparator_le_iff]
  omega

/-- Claim C7: `sortTasks` returns a permutation of its input ordered by
priority rank ascending with id ascending as tie-break, maps empty input to
empty output, and is stable: records with equal rank and equal id-or-zero
keep their relative input order.  The input list itself is untouched, the
embedding being pure. -/
theorem sortTasks_spec :
    (∀ ts : List Task,
      List.Perm (sortTasks ts) ts ∧
      List.Pairwise (fun a b =>
        priorityRank a.priority < priorityRank b.priority ∨
          (priorityRank a.priority = priorityRank b.priority ∧ idOrZero a ≤ idOrZero b))
        (sortTasks ts)) ∧
    sortTasks ([] : List Task) = [] ∧
    (∀ ts : List Task, ∀ a b : Task, [a, b].Sublist ts →
      priorityRank a.priority = priorityRank b.priority → idOrZero a = idOrZero b →
      [a, b].Sublist (sortTasks ts)) := by
  refine ⟨fun ts => ⟨List.mergeSort_perm ts taskLeB, ?_⟩, by simp [sortTasks], ?_⟩
  · have h := List.sorted_mergeSort taskLeB_trans taskLeB_total ts
    exact h.imp fun hab => (comparator_le_iff _ _).1 (by simpa [taskLeB] using hab)
  · intro ts a b hsub hrank hid
    refine List.sublist_mergeSort taskLeB_trans taskLeB_total ?_ hsub
    have hle : taskLeB a b = true := by
      simp only [taskLeB, decide_eq_true_eq, comparator_le_iff]
      exact Or.inr ⟨hrank, le_of_eq hid⟩
    simp [List.pairwise_cons, hle]

/-- Concrete instance of claim C7: two distinct records with the same sort
key keep their relative order. -/
theorem sortTasks_spec_witness :
    [sampleTaskA, sampleTaskB].Sublist (sortTasks [sampleTaskA, sampleTaskB]) :=
  sortTasks_spec.2.2 [sampleTaskA, sampleTaskB] sampleTaskA sampleTaskB
    (List.Sublist.refl _) rfl rfl

/-- Claim C8 counterexample: with `done=true` and `all=true` an open record
is filtered out — the `done` branch takes precedence, so `all=true` does not
disable status filtering regardless of the `done` flag as claimed. -/
theorem filterTasks_all_counterexample :
    sampleTask1.status = "open" ∧
    filterTasks [sampleTask1] { done := true, all := true } = [] :=
  ⟨rfl, rfl⟩

/-- Claim C8 as amended: with `all=true` and `done=false` no status
filtering is applied — open and done records both pass the status stage and
only the priority and tag criteria remain; when `done=true` the done-only
branch takes precedence even if `all=true`. -/
theorem filterTasks_all_noStatusFilter (f : ListFilters) (tasks : List Task)
    (h₁ : f.all = true) (h₂ : f.done = false) :
    filterTasks tasks f = tasks.filter (fun t => priorityPass f t && tagPass f t) := by
  simp [filterTasks, statusPass, h₁, h₂]

/-- Concrete instance of the amended claim C8: with `all=true` a done record
passes. -/
theorem filterTasks_all_noStatusFilter_witness :
    filterTasks [sampleDoneTask] { all := true } = [sampleDoneTask] := by
  rw [filterTasks_all_noStatusFilter { all := true } [sampleDoneTask] rfl rfl]
  decide

/-- Claim C9 counterexample: the empty string is outside the permitted
priority set, yet filter validation accepts it (JavaScript truthiness treats
it as unset), so not every out-of-set priority string is rejected. -/
theorem validateFilters_emptyString_counterexample :
    ¬ ("" ∈ VALID_PRIORITIES) ∧ validateFilters { priority := some "" } = .ok () :=
  ⟨by decide, rfl⟩

/-- Claim C9 as amended: a filter specification whose priority is a
non-empty string outside the permitted set is rejected with a
ValidationError naming the invalid value and the permitted set, once per
invocation before any record is filtered — the list-command result is then
independent of the loaded records. -/
theorem validateFilters_spec (f : ListFilters) (p : String)
    (hp : f.priority = some p) (hne : p ≠ "") (hinv : ¬ p ∈ VALID_PRIORITIES)
    (hh : f.help = false) :
    validateFilters f =
      .error { code := "INVALID_PRIORITY",
               message := "Invalid priority \"" ++ p ++ "\"\n\nValid priorities: " ++
                 String.intercalate ", " VALID_PRIORITIES } ∧
    (∀ tasks : List Task, runListWith f tasks =
      { success := false,
        output := "Error: " ++ ("Invalid priority \"" ++ p ++ "\"\n\nValid priorities: " ++
          String.intercalate ", " VALID_PRIORITIES),
        exitCode := 1 }) := by
  have hc : VALID_PRIORITIES.contains p = false := by
    simpa using hinv
  have hv : validateFilters f =
      .error { code := "INVALID_PRIORITY",
               message := "Invalid priority \"" ++ p ++ "\"\n\nValid priorities: " ++
                 String.intercalate ", " VALID_PRIORITIES } := by
    simp [validateFilters, truthyStr, hp, hne, hc, hinv]
  refine ⟨hv, fun tasks => ?_⟩
  simp [runListWith, hh, hv]

/-- Concrete instance of the amended claim C9 with its hypotheses
discharged; the second conjunct exhibits the independence of the result from
the loaded records. -/
theorem validateFilters_spec_witness :
    validateFilters { priority := some "urgent" } =
      .error { code := "INVALID_PRIORITY",
               message := "Invalid priority \"" ++ "urgent" ++ "\"\n\nValid priorities: " ++
                 String.intercalate ", " VALID_PRIORITIES } ∧
    runListWith { priority := some "urgent" } [] =
      runListWith { priority := some "urgent" } [sampleTask1] := by
  have h := validateFilters_spec { priority := some "urgent" } "urgent" rfl
    (by decide) (by decide) rfl
  exact ⟨h.1, (h.2 []).trans (h.2 [sampleTask1]).symm⟩

/-- Claim C10: running the done command on a valid id whose task is already
done returns success with exit code 0, never calls `saveTasks`, and leaves
every field of every task unchanged. -/
theorem runDone_alreadyDone_frame (today : String) (taskId : Int) (tasks : List Task)
    (task : Task) (_hpos : 0 < taskId)
    (hfind : findTaskById tasks taskId = some task) (hdone : task.status = "done") :
    (runDoneCore today taskId tasks).result.success = true ∧
    (runDoneCore today taskId tasks).result.exitCode = 0 ∧
    (runDoneCore today taskId tasks).saved = false ∧
    (runDoneCore today taskId tasks).tasks = tasks := by
  simp [runDoneCore, hfind, hdone]

/-- Concrete instance of claim C10 with its hypotheses discharged. -/
theorem runDone_alreadyDone_frame_witness :
    (runDoneCore "2025-12-04" 1 [sampleDoneTask]).saved = false ∧
    (runDoneCore "2025-12-04" 1 [sampleDoneTask]).tasks = [sampleDoneTask] := by
  have h := runDone_alreadyDone_frame "2025-12-04" 1 [sampleDoneTask] sampleDoneTask
    (by decide) rfl rfl
  exact ⟨h.2.2.1, h.2.2.2⟩

end TaskFlow
